import Mathlib

/-!
Verification development for the CPS Crazyflie path-finding repository.

The Python sources (`pathfinder_group3.py`, `path_finding_oran.py`,
`path_finding.py`) are shallowly embedded below.  Python floats are
modelled as exact rationals (for the pure grid/normalisation pipeline,
which only adds, subtracts, negates and divides by 10) or as real
numbers (for the calibration pipeline, which uses `atan2`, `cos` and
`sin`).  Fallible Python code (uncaught `ValueError` from `float(...)`
or `int(...)`, `ZeroDivisionError`) is modelled with `Except`.
-/

/-- Python exceptions that the embedded fragments can raise. -/
inductive PyErr where
  | valueError
  | zeroDivisionError
deriving DecidableEq

/-- One CSV field, as seen by `csv.reader`: either a field whose text
parses as a Python number, carried as its exact value, or a field on
which `float(...)` / `int(...)` raises `ValueError`. -/
inductive Cell where
  | num (val : ℚ)
  | text (s : String)
deriving DecidableEq

/-- `float(field)`: succeeds exactly on numeric fields. -/
def floatOfCell : Cell → Option ℚ
  | .num v => some v
  | .text _ => none

/-- `int(field)`: succeeds exactly on fields holding an integer
(`int("8.5")` raises `ValueError` in Python, hence the denominator
check). -/
def intOfCell : Cell → Option ℤ
  | .num v => if v.den = 1 then some v.num else none
  | .text _ => none

/-- The row-reading loop shared by `read_path_waypoints` and
`read_all_blocks` in `pathfinder_group3.py` / `path_finding.py`
(lines 77–86 of `pathfinder_group3.py`): a row with fewer than 2 fields
is skipped; on a row with at least 2 fields, `float(row[0])` and
`float(row[1])` are attempted, and a non-numeric field raises an
uncaught `ValueError`. -/
def parseRows : List (List Cell) → Except PyErr (List (ℚ × ℚ))
  | [] => .ok []
  | row :: rest =>
    if row.length ≥ 2 then
      match floatOfCell (row.getD 0 (.text "")), floatOfCell (row.getD 1 (.text "")) with
      | some x, some y =>
        match parseRows rest with
        | .ok pts => .ok ((x, y) :: pts)
        | .error e => .error e
      | _, _ => .error .valueError
    else parseRows rest

/-- A value returned by `read_path_waypoints`: either a raw 2-element
grid point (the `len(points) < 2` early return) or a normalised
3-tuple at the configured flight height. -/
inductive Waypoint where
  | raw2 (x y : ℚ)
  | norm3 (x y z : ℚ)
deriving DecidableEq

/-- The corner-keeping loop of `read_path_waypoints`
(`pathfinder_group3.py` lines 93–98): an interior point is kept iff the
direction vector from its predecessor to it differs from the direction
vector from it to its successor (exact vector inequality). -/
def interiorCorners : List (ℚ × ℚ) → List (ℚ × ℚ)
  | a :: b :: c :: rest =>
    (if (b.1 - a.1, b.2 - a.2) ≠ (c.1 - b.1, c.2 - b.2) then [b] else []) ++
      interiorCorners (b :: c :: rest)
  | _ => []

/-- `read_path_waypoints` after row parsing (`pathfinder_group3.py`
lines 88–111): fewer than 2 points are returned raw; otherwise the
first point, the kept interior corners and the last point are
normalised relative to the first point (offset subtracted, divided by
10, y negated) and given flight height 0.15. -/
def compileWaypoints (pts : List (ℚ × ℚ)) : List Waypoint :=
  if pts.length < 2 then
    pts.map (fun p => Waypoint.raw2 p.1 p.2)
  else
    let waypoints := pts.headD (0, 0) :: (interiorCorners pts ++ [pts.getLastD (0, 0)])
    let off := waypoints.headD (0, 0)
    waypoints.map (fun p =>
      Waypoint.norm3 ((p.1 - off.1) / 10) (-(p.2 - off.2) / 10) (15 / 100))

/-- `read_path_waypoints(csv_file)` from `pathfinder_group3.py`
(lines 75–111).  `none` models a missing file: `FileNotFoundError`
is caught and `[]` returned. -/
def read_path_waypoints (file : Option (List (List Cell))) : Except PyErr (List Waypoint) :=
  match file with
  | none => .ok []
  | some rows =>
    match parseRows rows with
    | .ok pts => .ok (compileWaypoints pts)
    | .error e => .error e

/-- Specification-side rendering of the corner rule: walk the
consecutive triples `(a, b, c)` of the input and keep `b` iff the
direction `b - a` differs from the direction `c - b`. -/
def cornerSpec (pts : List (ℚ × ℚ)) : List (ℚ × ℚ) :=
  ((pts.zip pts.tail).zip pts.tail.tail).filterMap (fun t =>
    if (t.1.2.1 - t.1.1.1, t.1.2.2 - t.1.1.2) ≠ (t.2.1 - t.1.2.1, t.2.2 - t.1.2.2) then
      some t.1.2
    else none)

/-- Number of fields of a CSV row on which `float(...)` succeeds. -/
def numericFieldCount (row : List Cell) : ℕ :=
  (row.filterMap floatOfCell).length

/-- `COLOUR_THRESHOLD` from `pathfinder_group3.py` (line 41). -/
def COLOUR_THRESHOLD_group3 : ℕ := 3500

/-- `COLOUR_THRESHOLD` from `path_finding_oran.py` (line 26). -/
def COLOUR_THRESHOLD_oran : ℕ := 2250

/-- `over_obstacle()` (`pathfinder_group3.py` lines 171–173): the
current shutter reading strictly exceeds the colour threshold. -/
def over_obstacle (threshold shutter : ℕ) : Bool :=
  decide (threshold < shutter)

/-- The sampling loop of `run_sequence` (`pathfinder_group3.py`
lines 229–233): 50 polls of the shared shutter reading, counting the
polls for which `over_obstacle()` holds.  `samples j` is the shutter
value seen by the `j`-th poll. -/
def sampleBlack (threshold : ℕ) (samples : ℕ → ℕ) : ℕ :=
  (List.range 50).foldl
    (fun black j => if over_obstacle threshold (samples j) then black + 1 else black) 0

/-- The window verdict `black >= debounce` used at
`pathfinder_group3.py` line 237 (debounce 40) and
`path_finding_oran.py` line 276 (debounce 45). -/
def windowVerdict (threshold debounce : ℕ) (samples : ℕ → ℕ) : Bool :=
  decide (debounce ≤ sampleBlack threshold samples)

-- Concrete inputs used by the theorems below.

/-- Five colinear points, a turn, then three more colinear points. -/
def ex8 : List (ℚ × ℚ) :=
  [(0, 0), (1, 0), (2, 0), (3, 0), (4, 0), (4, 1), (4, 2), (4, 3)]

/-- A row with two fields, neither of which is numeric. -/
def badRow : List Cell := [.text "a", .text "b"]

noncomputable section

/-- A vehicle-frame point `(x, y, z)` in metres, a Python 3-tuple. -/
structure Point3 where
  x : ℝ
  y : ℝ
  z : ℝ

/-- `math.atan2(y, x)`. -/
def atan2 (y x : ℝ) : ℝ :=
  if 0 < x then Real.arctan (y / x)
  else if x < 0 ∧ 0 ≤ y then Real.arctan (y / x) + Real.pi
  else if x < 0 then Real.arctan (y / x) - Real.pi
  else if 0 < y then Real.pi / 2
  else if y < 0 then -(Real.pi / 2)
  else 0

/-- Python `round()`: round half to even. -/
def pyRound (r : ℝ) : ℤ :=
  if Int.fract r = 1 / 2 then 2 * round (r / 2) else round r

/-- Python `int()` on a float: truncation toward zero. -/
def pyInt (r : ℝ) : ℤ :=
  if 0 ≤ r then ⌊r⌋ else ⌈r⌉

/-- Python float division, which raises `ZeroDivisionError` on a zero
divisor. -/
def pyDiv (a b : ℝ) : Except PyErr ℝ :=
  if b = 0 then .error .zeroDivisionError else .ok (a / b)

/-- The four measured vehicle-frame corner positions stored in
`CrazyflieMapCalibrator.lighthouse_coords` (`path_finding_oran.py`
lines 36–41), keyed in source order by the fixed grid corners
`(2,15)`, `(2,2)`, `(15,2)`, `(15,15)`.  The dict values are the
configurable part (the source comments say to update them with
measurements), so the constructor is embedded as a function of them. -/
structure CalibConfig where
  start_real : ℝ × ℝ
  bottom_left_real : ℝ × ℝ
  bottom_right_real : ℝ × ℝ
  end_real : ℝ × ℝ

/-- The measurements hardcoded in the source. -/
def lighthouse_coords : CalibConfig :=
  ⟨(-0.31, -0.18), (-0.31, 1.12), (1.00, 1.12), (1.00, -0.20)⟩

/-- The fields of `CrazyflieMapCalibrator` computed by
`calculate_transformation`. -/
structure CrazyflieMapCalibrator where
  scale_x : ℝ
  scale_y : ℝ
  origin_x : ℝ
  origin_y : ℝ
  rotation : ℝ

/-- `CrazyflieMapCalibrator.calculate_transformation`
(`path_finding_oran.py` lines 51–78), with the grid corners fixed as in
the source (`start_grid = (2,15)`, `bottom_left_grid = (2,2)`,
`bottom_right_grid = (15,2)`). -/
def calculate_transformation (cfg : CalibConfig) : CrazyflieMapCalibrator :=
  let grid_y_dist := |(15 : ℝ) - 2|
  let real_y_dist := |cfg.start_real.2 - cfg.bottom_left_real.2|
  let scale_y := real_y_dist / grid_y_dist
  let grid_x_dist := |(15 : ℝ) - 2|
  let real_x_dist := |cfg.bottom_right_real.1 - cfg.bottom_left_real.1|
  let scale_x := real_x_dist / grid_x_dist
  let origin_x := cfg.start_real.1 - 2 * scale_x
  let origin_y := cfg.start_real.2 - 15 * scale_y
  let rot :=
    atan2 (cfg.bottom_right_real.2 - cfg.bottom_left_real.2)
      (cfg.bottom_right_real.1 - cfg.bottom_left_real.1) - 0
  ⟨scale_x, scale_y, origin_x, origin_y, rot⟩

/-- `calculate_transformation` with its two float divisions made
explicit as fallible operations, to record which raise paths exist. -/
def calculate_transformationE (cfg : CalibConfig) : Except PyErr CrazyflieMapCalibrator :=
  match pyDiv |cfg.start_real.2 - cfg.bottom_left_real.2| |(15 : ℝ) - 2| with
  | .error e => .error e
  | .ok scale_y =>
    match pyDiv |cfg.bottom_right_real.1 - cfg.bottom_left_real.1| |(15 : ℝ) - 2| with
    | .error e => .error e
    | .ok scale_x =>
      .ok ⟨scale_x, scale_y, cfg.start_real.1 - 2 * scale_x,
        cfg.start_real.2 - 15 * scale_y,
        atan2 (cfg.bottom_right_real.2 - cfg.bottom_left_real.2)
          (cfg.bottom_right_real.1 - cfg.bottom_left_real.1) - 0⟩

/-- The global `calibrator` instance of `path_finding_oran.py`
(line 123). -/
def calibrator : CrazyflieMapCalibrator :=
  calculate_transformation lighthouse_coords

/-- `CrazyflieMapCalibrator.grid_to_crazyflie_coords`
(`path_finding_oran.py` lines 82–100): scale, rotate when the stored
rotation exceeds 0.01 in magnitude, translate by the origin, attach the
height (the source's default height argument is 0.15). -/
def grid_to_crazyflie_coords (cal : CrazyflieMapCalibrator)
    (grid_x grid_y height : ℝ) : Point3 :=
  let scaled_x := grid_x * cal.scale_x
  let scaled_y := grid_y * cal.scale_y
  let rotated :=
    if |cal.rotation| > 0.01 then
      (scaled_x * Real.cos cal.rotation - scaled_y * Real.sin cal.rotation,
       scaled_x * Real.sin cal.rotation + scaled_y * Real.cos cal.rotation)
    else (scaled_x, scaled_y)
  ⟨rotated.1 + cal.origin_x, rotated.2 + cal.origin_y, height⟩

/-- `CrazyflieMapCalibrator.crazyflie_to_grid_coords`
(`path_finding_oran.py` lines 102–120): subtract the origin, rotate
back when the stored rotation exceeds 0.01 in magnitude, divide by the
scales, and round each coordinate to the nearest integer grid cell. -/
def crazyflie_to_grid_coords (cal : CrazyflieMapCalibrator)
    (cf_x cf_y : ℝ) : ℤ × ℤ :=
  let relative_x := cf_x - cal.origin_x
  let relative_y := cf_y - cal.origin_y
  let unrotated :=
    if |cal.rotation| > 0.01 then
      (relative_x * Real.cos (-cal.rotation) - relative_y * Real.sin (-cal.rotation),
       relative_x * Real.sin (-cal.rotation) + relative_y * Real.cos (-cal.rotation))
    else (relative_x, relative_y)
  (pyRound (unrotated.1 / cal.scale_x), pyRound (unrotated.2 / cal.scale_y))

/-- The row loop of `read_all_blocks` (`path_finding_oran.py`
lines 188–197): rows with fewer than 2 fields are skipped, others are
parsed with `int(...)` and pushed through the calibrator's forward
transform at the default height 0.15. -/
def readBlocksRows : List (List Cell) → Except PyErr (List Point3)
  | [] => .ok []
  | row :: rest =>
    if row.length ≥ 2 then
      match intOfCell (row.getD 0 (.text "")), intOfCell (row.getD 1 (.text "")) with
      | some gx, some gy =>
        match readBlocksRows rest with
        | .ok blocks => .ok (grid_to_crazyflie_coords calibrator gx gy 0.15 :: blocks)
        | .error e => .error e
      | _, _ => .error .valueError
    else readBlocksRows rest

/-- `read_all_blocks(csv_file)` from `path_finding_oran.py`
(lines 185–206); a missing file (`none`) yields `[]`. -/
def read_all_blocks (file : Option (List (List Cell))) : Except PyErr (List Point3) :=
  match file with
  | none => .ok []
  | some rows => readBlocksRows rows

/-- `rotate_sequence(sequence, theta)` from `pathfinder_group3.py`
(lines 57–68), embedded with the same append loop. -/
def rotate_sequence (seq : List Point3) (theta : ℝ) : List Point3 :=
  seq.foldl
    (fun acc pos =>
      acc ++ [⟨pos.x * Real.cos theta - pos.y * Real.sin theta,
              pos.x * Real.sin theta + pos.y * Real.cos theta, pos.z⟩]) []

/-- External commands and delays issued by `run_sequence`, in order. -/
inductive Event where
  | armRequest (flag : Bool)
  | setpoint (x y z yaw : ℝ)
  | stopSetpoint
  | notifySetpointStop
  | sleep (seconds : ℝ)

/-- The state of `FlightSequencer` at the end of a run: `Aborted` when
the loop broke out through the obstacle retreat (`obstacle_detected`),
`Completed` when the waypoint sequence was exhausted. -/
inductive FlightState where
  | Completed
  | Aborted
deriving DecidableEq

/-- The run-time constants in which the `run_sequence` variants differ:
detection threshold, debounce count, retreat height, and the
obstacle-record conversion used by `update_csv`. -/
structure SeqCfg where
  threshold : ℕ
  debounce : ℕ
  retreatZ : ℝ
  record : Point3 → ℤ × ℤ

/-- Positions of the run: `initX`/`initY` are `initial_position`
(the retreat target), `baseX`/`baseY`/`baseZ` the base offsets added
to each waypoint, `yaw` the fixed yaw. -/
structure RunParams where
  initX : ℝ
  initY : ℝ
  baseX : ℝ
  baseY : ℝ
  baseZ : ℝ
  yaw : ℝ

/-- `update_csv` of `pathfinder_group3.py` (lines 179–192): undo the
normalisation (multiply by 10, negate y, add the stored offsets) and
truncate to integers. -/
def update_csv_group3 (offX offY : ℝ) (p : Point3) : ℤ × ℤ :=
  (pyInt (p.x * 10 + offX), pyInt (-p.y * 10 + offY))

/-- `update_csv` of `path_finding_oran.py` (lines 229–243): the
calibrator's inverse transform of the obstacle position. -/
def update_csv_oran (p : Point3) : ℤ × ℤ :=
  crazyflie_to_grid_coords calibrator p.x p.y

/-- The `run_sequence` constants of `pathfinder_group3.py`:
threshold 3500, debounce 40 (line 237), retreat height 0.15
(line 239), offset-based obstacle record. -/
def group3Cfg (offX offY : ℝ) : SeqCfg :=
  ⟨COLOUR_THRESHOLD_group3, 40, 0.15, update_csv_group3 offX offY⟩

/-- The `run_sequence` constants of `path_finding_oran.py`:
threshold 2250, debounce 45 (line 276), retreat height 0.2 (line 278),
calibrator-based obstacle record. -/
def oranCfg : SeqCfg :=
  ⟨COLOUR_THRESHOLD_oran, 45, 0.2, update_csv_oran⟩

/-- The commands sent while transiting to and sampling at one waypoint
(`pathfinder_group3.py` lines 222–233): ten position setpoints toward
the base-offset target each followed by a 0.1 s delay, then fifty
0.01 s sampling delays. -/
def transitEvents (pr : RunParams) (p : Point3) : List Event :=
  (List.range 10).foldl
    (fun acc _ =>
      acc ++ [Event.setpoint (p.x + pr.baseX) (p.y + pr.baseY) (p.z + pr.baseZ) pr.yaw,
              Event.sleep (1 / 10)]) []
  ++ (List.range 50).foldl (fun acc _ => acc ++ [Event.sleep (1 / 100)]) []

/-- The retreat burst (`pathfinder_group3.py` lines 238–240): thirty
setpoints toward `initial_position` at the retreat height. -/
def retreatEvents (cfg : SeqCfg) (pr : RunParams) : List Event :=
  (List.range 30).foldl
    (fun acc _ =>
      acc ++ [Event.setpoint pr.initX pr.initY cfg.retreatZ pr.yaw,
              Event.sleep (1 / 10)]) []

/-- One iteration of the waypoint loop of `run_sequence`
(`pathfinder_group3.py` lines 215–246): returns the events issued, the
obstacle records appended to `obstacles.csv`, and whether
`obstacle_detected` was set (which breaks the loop).  The retreat runs
iff the window verdict is positive and the waypoint index is not 0. -/
def waypointStep (cfg : SeqCfg) (pr : RunParams) (i : ℕ) (p : Point3)
    (samples : ℕ → ℕ) : List Event × List (ℤ × ℤ) × Bool :=
  if windowVerdict cfg.threshold cfg.debounce samples = true ∧ i ≠ 0 then
    (transitEvents pr p ++ retreatEvents cfg pr, [cfg.record p], true)
  else
    (transitEvents pr p, [], false)

/-- The waypoint loop of `run_sequence`, threading the waypoint index
and breaking out once `obstacle_detected` is set.  `env i` gives the
shutter values polled at waypoint `i`. -/
def runLoop (cfg : SeqCfg) (pr : RunParams) (env : ℕ → ℕ → ℕ) :
    ℕ → List Point3 → List Event × List (ℤ × ℤ) × Bool
  | _, [] => ([], [], false)
  | i, p :: rest =>
    let step := waypointStep cfg pr i p (env i)
    if step.2.2 then step
    else
      let next := runLoop cfg pr env (i + 1) rest
      (step.1 ++ next.1, step.2.1 ++ next.2.1, next.2.2)

/-- `run_sequence(scf, sequence, ...)` (`pathfinder_group3.py`
lines 207–255 and `path_finding_oran.py` lines 245–294): arm, wait 1 s,
run the waypoint loop, then unconditionally send a stop setpoint, a
setpoint-stop notification, and wait the 0.1 s drain delay.  Returns
the event trace, the obstacle log, and the final state. -/
def run_sequence (cfg : SeqCfg) (pr : RunParams) (env : ℕ → ℕ → ℕ)
    (seq : List Point3) : List Event × List (ℤ × ℤ) × FlightState :=
  let res := runLoop cfg pr env 0 seq
  (Event.armRequest true :: Event.sleep 1 :: res.1 ++
      [Event.stopSetpoint, Event.notifySetpointStop, Event.sleep (1 / 10)],
   res.2.1,
   if res.2.2 then FlightState.Aborted else FlightState.Completed)

/-- The degenerate calibration configuration in which all four corner
measurements coincide. -/
def degenerate_coords : CalibConfig := ⟨(0, 0), (0, 0), (0, 0), (0, 0)⟩

/-- The planner file of the end-to-end scenario: grid points
`(2,15)`, `(8,2)`, `(15,2)`. -/
def c5File : List (List Cell) :=
  [[.num 2, .num 15], [.num 8, .num 2], [.num 15, .num 2]]

/-- The compiled waypoints of the end-to-end scenario. -/
def c5Blocks : List Point3 :=
  [grid_to_crazyflie_coords calibrator 2 15 0.15,
   grid_to_crazyflie_coords calibrator 8 2 0.15,
   grid_to_crazyflie_coords calibrator 15 2 0.15]

/-- Sensor environment of the end-to-end scenario: every poll at
waypoint index 1 reads 60000, every other poll reads 0. -/
def c5Env : ℕ → ℕ → ℕ := fun i _ => if i = 1 then 60000 else 0

end


-- Helper lemmas shared by the claim theorems.

/-- The counting fold of the sampling loop counts exactly the polls
satisfying the predicate. -/
theorem foldl_count_eq (p : ℕ → Bool) :
    ∀ (l : List ℕ) (a : ℕ),
      l.foldl (fun black j => if p j then black + 1 else black) a =
        a + (l.filter p).length := by
  intro l
  induction l with
  | nil => intro a; simp
  | cons h t ih =>
    intro a
    by_cases hp : p h
    · simp [hp, ih, Nat.add_assoc, Nat.add_comm 1]
    · simp [hp, ih]

/-- `sampleBlack` counts, among the 50 polls of the window, those whose
value strictly exceeds the threshold. -/
theorem sampleBlack_eq (threshold : ℕ) (samples : ℕ → ℕ) :
    sampleBlack threshold samples =
      ((List.range 50).filter (fun j => threshold < samples j)).length := by
  have h := foldl_count_eq (fun j => over_obstacle threshold (samples j)) (List.range 50) 0
  simp only [sampleBlack, h, Nat.zero_add]
  rfl

/-- An append-accumulating fold builds the map of the folded list. -/
theorem foldl_append_eq_map {α β : Type} (g : α → β) :
    ∀ (l : List α) (acc : List β),
      l.foldl (fun a x => a ++ [g x]) acc = acc ++ l.map g := by
  intro l
  induction l with
  | nil => intro acc; simp
  | cons h t ih => intro acc; simp [ih]

/-- At waypoint index 0 the detection branch is never taken: the step
issues only the transit and sampling events, appends no obstacle
record, and does not set `obstacle_detected`. -/
theorem waypointStep_zero (cfg : SeqCfg) (pr : RunParams) (p : Point3)
    (samples : ℕ → ℕ) :
    waypointStep cfg pr 0 p samples = (transitEvents pr p, [], false) := by
  simp [waypointStep]

/-- The waypoint loop started at index `k` only reads the sensor
environment at indices at least `k`. -/
theorem runLoop_env_congr (cfg : SeqCfg) (pr : RunParams)
    (env env2 : ℕ → ℕ → ℕ) :
    ∀ (rest : List Point3) (k : ℕ), (∀ i, k ≤ i → env i = env2 i) →
      runLoop cfg pr env k rest = runLoop cfg pr env2 k rest := by
  intro rest
  induction rest with
  | nil => intro k _; rfl
  | cons p t ih =>
    intro k h
    have hk : env k = env2 k := h k (Nat.le_refl k)
    have ht : runLoop cfg pr env (k + 1) t = runLoop cfg pr env2 (k + 1) t :=
      ih (k + 1) (fun i hi => h i (Nat.le_of_succ_le hi))
    simp [runLoop, hk, ht]

/-- C3: the obstacle classifier takes exactly 50 samples per window,
classifies a sample positive iff its value strictly exceeds the
threshold, and the verdict is positive iff the positive count reaches
the debounce count; with debounce 40, a window with exactly 39 samples
above threshold is negative and one with 40 above is positive. -/
theorem C3_obstacle_debounce (samples : ℕ → ℕ) :
    (windowVerdict COLOUR_THRESHOLD_group3 40 samples = true ↔
      40 ≤ ((List.range 50).filter
        (fun j => COLOUR_THRESHOLD_group3 < samples j)).length)
    ∧ (∀ v : ℕ, over_obstacle COLOUR_THRESHOLD_group3 v = true ↔ 3500 < v)
    ∧ windowVerdict COLOUR_THRESHOLD_group3 40
        (fun j => if j < 39 then 3501 else 0) = false
    ∧ windowVerdict COLOUR_THRESHOLD_group3 40
        (fun j => if j < 40 then 3501 else 0) = true := by
  refine ⟨?_, ?_, by decide, by decide⟩
  · rw [windowVerdict, sampleBlack_eq]
    exact decide_eq_true_iff
  · intro v
    simp [over_obstacle, COLOUR_THRESHOLD_group3]

/-- C9: the whole-sequence rotation returns a sequence of the same
length and order in which each point's planar coordinates are rotated
by `theta` about the origin and each height is unchanged. -/
theorem C9_rotate_sequence (seq : List Point3) (theta : ℝ) :
    rotate_sequence seq theta =
      seq.map (fun p =>
        ⟨p.x * Real.cos theta - p.y * Real.sin theta,
         p.x * Real.sin theta + p.y * Real.cos theta, p.z⟩)
    ∧ (rotate_sequence seq theta).length = seq.length
    ∧ (rotate_sequence seq theta).map Point3.z = seq.map Point3.z := by
  have h : rotate_sequence seq theta =
      seq.map (fun p =>
        (⟨p.x * Real.cos theta - p.y * Real.sin theta,
          p.x * Real.sin theta + p.y * Real.cos theta, p.z⟩ : Point3)) := by
    have := foldl_append_eq_map
      (fun p : Point3 =>
        (⟨p.x * Real.cos theta - p.y * Real.sin theta,
          p.x * Real.sin theta + p.y * Real.cos theta, p.z⟩ : Point3)) seq []
    simpa [rotate_sequence] using this
  refine ⟨h, by simp [h], by simp [h]⟩

/-- C8: every run of the sequencer, whether it exhausts the sequence
or breaks out after a retreat, ends its command trace with a stop
setpoint, then a setpoint-stop notification, then the fixed 0.1 s
drain delay. -/
theorem C8_shutdown_suffix (cfg : SeqCfg) (pr : RunParams)
    (env : ℕ → ℕ → ℕ) (seq : List Point3) :
    ∃ pre, (run_sequence cfg pr env seq).1 =
      pre ++ [Event.stopSetpoint, Event.notifySetpointStop, Event.sleep (1 / 10)] := by
  refine ⟨Event.armRequest true :: Event.sleep 1 :: (runLoop cfg pr env 0 seq).1, ?_⟩
  simp [run_sequence]

/-- C4: a positive obstacle window at waypoint index 0 never triggers
the retreat: the step at index 0 issues only transit and sampling
events, logs nothing, and does not stop the run, whatever the samples
read; consequently the whole run is unchanged if the samples seen at
waypoint 0 are replaced arbitrarily. -/
theorem C4_first_waypoint_exemption (cfg : SeqCfg) (pr : RunParams)
    (p : Point3) (samples : ℕ → ℕ) (env env2 : ℕ → ℕ → ℕ)
    (seq : List Point3) :
    waypointStep cfg pr 0 p samples = (transitEvents pr p, [], false)
    ∧ run_sequence cfg pr (fun i => if i = 0 then env2 0 else env i) seq =
        run_sequence cfg pr env seq := by
  refine ⟨waypointStep_zero cfg pr p samples, ?_⟩
  have hloop : runLoop cfg pr (fun i => if i = 0 then env2 0 else env i) 0 seq =
      runLoop cfg pr env 0 seq := by
    cases seq with
    | nil => rfl
    | cons q rest =>
      have htail : runLoop cfg pr (fun i => if i = 0 then env2 0 else env i) 1 rest =
          runLoop cfg pr env 1 rest := by
        apply runLoop_env_congr
        intro i hi
        have : i ≠ 0 := Nat.one_le_iff_ne_zero.mp hi
        simp [this]
      simp [runLoop, waypointStep_zero, htail]
  simp [run_sequence, hloop]

/-- The fixed grid distance used by both scale computations is 13. -/
theorem grid_dist_eq : |(15 : ℝ) - 2| = 13 := by
  rw [show (15 : ℝ) - 2 = 13 by norm_num]
  exact abs_of_pos (by norm_num)

/-- The x-distance between the measured bottom corners. -/
theorem real_x_dist_eq : |(1.00 : ℝ) - (-0.31)| = 1.31 := by
  rw [show (1.00 : ℝ) - (-0.31) = 1.31 by norm_num]
  exact abs_of_pos (by norm_num)

/-- The y-distance between the measured start and bottom-left corners. -/
theorem real_y_dist_eq : |(-0.18 : ℝ) - 1.12| = 1.3 := by
  rw [show (-0.18 : ℝ) - 1.12 = -(1.3) by norm_num]
  rw [abs_neg]
  exact abs_of_pos (by norm_num)

/-- The global calibrator's stored rotation is zero: the two measured
bottom corners have equal y, so `atan2` is taken at `(0, 1.31)`. -/
theorem calibrator_rotation : calibrator.rotation = 0 := by
  simp only [calibrator, calculate_transformation, lighthouse_coords, atan2]
  norm_num

/-- The global calibrator's x scale factor. -/
theorem calibrator_scale_x : calibrator.scale_x = 1.31 / 13 := by
  simp only [calibrator, calculate_transformation, lighthouse_coords]
  rw [real_x_dist_eq, grid_dist_eq]

/-- The global calibrator's y scale factor. -/
theorem calibrator_scale_y : calibrator.scale_y = 1.3 / 13 := by
  simp only [calibrator, calculate_transformation, lighthouse_coords]
  rw [real_y_dist_eq, grid_dist_eq]

/-- Python `round` fixes integers. -/
theorem pyRound_intCast (n : ℤ) : pyRound (n : ℝ) = n := by
  unfold pyRound
  rw [Int.fract_intCast, if_neg (by norm_num), round_intCast]

/-- Python `round` fixes natural-number literals. -/
theorem pyRound_natCast (n : ℕ) : pyRound (n : ℝ) = n := by
  simpa using pyRound_intCast n

/-- Round trip of the global calibrator: applying the forward transform
and then the inverse one yields the rounded input grid point. -/
theorem calibrator_roundtrip (gx gy h : ℝ) :
    crazyflie_to_grid_coords calibrator
      (grid_to_crazyflie_coords calibrator gx gy h).x
      (grid_to_crazyflie_coords calibrator gx gy h).y =
      (pyRound gx, pyRound gy) := by
  have hsx : calibrator.scale_x ≠ 0 := by rw [calibrator_scale_x]; norm_num
  have hsy : calibrator.scale_y ≠ 0 := by rw [calibrator_scale_y]; norm_num
  have h01 : ¬ (|(0 : ℝ)| > 0.01) := by rw [abs_zero]; norm_num
  simp only [grid_to_crazyflie_coords, crazyflie_to_grid_coords,
    calibrator_rotation, if_neg h01]
  have e1 : (gx * calibrator.scale_x + calibrator.origin_x - calibrator.origin_x) /
      calibrator.scale_x = gx := by field_simp
  have e2 : (gy * calibrator.scale_y + calibrator.origin_y - calibrator.origin_y) /
      calibrator.scale_y = gy := by field_simp
  rw [e1, e2]

/-- C1: for every grid point in the calibrated bounding region and
every height, the forward calibration transform followed by the inverse
transform returns the grid point rounded to the nearest integer grid
cell. -/
theorem C1_roundtrip (gx gy h : ℝ) (hx1 : 2 ≤ gx) (hx2 : gx ≤ 15)
    (hy1 : 2 ≤ gy) (hy2 : gy ≤ 15) :
    crazyflie_to_grid_coords calibrator
      (grid_to_crazyflie_coords calibrator gx gy h).x
      (grid_to_crazyflie_coords calibrator gx gy h).y =
      (pyRound gx, pyRound gy) :=
  calibrator_roundtrip gx gy h

/-- Witness for C1 at the grid point `(3, 7)` and height `0.15`. -/
theorem C1_roundtrip_witness :
    (2 : ℝ) ≤ 3 ∧ (3 : ℝ) ≤ 15 ∧ (2 : ℝ) ≤ 7 ∧ (7 : ℝ) ≤ 15 ∧
    crazyflie_to_grid_coords calibrator
      (grid_to_crazyflie_coords calibrator 3 7 0.15).x
      (grid_to_crazyflie_coords calibrator 3 7 0.15).y = (3, 7) := by
  refine ⟨by norm_num, by norm_num, by norm_num, by norm_num, ?_⟩
  rw [C1_roundtrip 3 7 0.15 (by norm_num) (by norm_num) (by norm_num) (by norm_num)]
  have h3 : pyRound (3 : ℝ) = 3 := by simpa using pyRound_natCast 3
  have h7 : pyRound (7 : ℝ) = 7 := by simpa using pyRound_natCast 7
  rw [h3, h7]

/-- Counterexample for C7: with degenerate corner measurements (all
four corners measured at the same spot) both computed scale factors are
zero, yet the constructor succeeds and returns the transform instead of
failing: the source performs no validation and has no calibration
error path. -/
theorem C7_calibration_cex :
    calculate_transformationE degenerate_coords =
      .ok (calculate_transformation degenerate_coords)
    ∧ (calculate_transformation degenerate_coords).scale_x = 0
    ∧ (calculate_transformation degenerate_coords).scale_y = 0 := by
  have h13 : |(15 : ℝ) - 2| ≠ 0 := by rw [grid_dist_eq]; norm_num
  refine ⟨?_, ?_, ?_⟩
  · simp [calculate_transformationE, calculate_transformation, pyDiv, h13]
  · simp only [calculate_transformation, degenerate_coords]
    norm_num
  · simp only [calculate_transformation, degenerate_coords]
    norm_num

/-- C7 as amended: construction of the calibration transform never
fails and performs no validation — for every configuration of the four
corner measurements the constructor returns a transform (its only
divisions are by the constant grid distance 13), even when a computed
scale factor is zero; with the shipped measurements both scale factors
are nonzero. -/
theorem C7_calibration_amended :
    (∀ cfg : CalibConfig,
      calculate_transformationE cfg = .ok (calculate_transformation cfg))
    ∧ (calculate_transformation lighthouse_coords).scale_x ≠ 0
    ∧ (calculate_transformation lighthouse_coords).scale_y ≠ 0 := by
  have h13 : |(15 : ℝ) - 2| ≠ 0 := by rw [grid_dist_eq]; norm_num
  refine ⟨?_, ?_, ?_⟩
  · intro cfg
    simp [calculate_transformationE, calculate_transformation, pyDiv, h13]
  · show calibrator.scale_x ≠ 0
    rw [calibrator_scale_x]; norm_num
  · show calibrator.scale_y ≠ 0
    rw [calibrator_scale_y]; norm_num

/-- The obstacle record logged for the second waypoint of the
end-to-end scenario is exactly the original grid point `(8, 2)`. -/
theorem c5_record_eq :
    oranCfg.record (grid_to_crazyflie_coords calibrator 8 2 0.15) = (8, 2) := by
  show update_csv_oran _ = _
  unfold update_csv_oran
  rw [calibrator_roundtrip]
  have h8 : pyRound (8 : ℝ) = 8 := by simpa using pyRound_natCast 8
  have h2 : pyRound (2 : ℝ) = 2 := by simpa using pyRound_natCast 2
  rw [h8, h2]

/-- C5: with the shipped correspondences, compiling the planner file
`[(2,15), (8,2), (15,2)]` yields exactly the three forward-transformed
vehicle-frame waypoints at height 0.15; running the sequencer on them
with a positive window at the second waypoint appends exactly one
obstacle record, `(8, 2)`, and ends the run in `Aborted`. -/
theorem C5_end_to_end (pr : RunParams) :
    read_all_blocks (some c5File) =
      .ok [grid_to_crazyflie_coords calibrator 2 15 0.15,
           grid_to_crazyflie_coords calibrator 8 2 0.15,
           grid_to_crazyflie_coords calibrator 15 2 0.15]
    ∧ (run_sequence oranCfg pr c5Env c5Blocks).2.1 = [(8, 2)]
    ∧ (run_sequence oranCfg pr c5Env c5Blocks).2.2 = FlightState.Aborted := by
  have hv0 : windowVerdict oranCfg.threshold oranCfg.debounce (c5Env 0) = false := by
    have he : c5Env 0 = fun _ => 0 := by funext j; simp [c5Env]
    rw [he]; decide
  have hv1 : windowVerdict oranCfg.threshold oranCfg.debounce (c5Env 1) = true := by
    have he : c5Env 1 = fun _ => 60000 := by funext j; simp [c5Env]
    rw [he]; decide
  have hstep0 : ∀ p, waypointStep oranCfg pr 0 p (c5Env 0) =
      (transitEvents pr p, [], false) := fun p => waypointStep_zero oranCfg pr p _
  have hstep1 : ∀ p, waypointStep oranCfg pr 1 p (c5Env 1) =
      (transitEvents pr p ++ retreatEvents oranCfg pr, [oranCfg.record p], true) := by
    intro p
    simp [waypointStep, hv1]
  refine ⟨?_, ?_, ?_⟩
  · simp only [read_all_blocks, readBlocksRows, c5File, intOfCell]
    norm_num
  · simp only [run_sequence, c5Blocks, runLoop, hstep0, hstep1]
    simp [c5_record_eq]
  · simp only [run_sequence, c5Blocks, runLoop, hstep0, hstep1]
    simp

/-- The corner-keeping loop agrees with the triple-walk rendering of
the rule: an interior point is kept iff the incoming and outgoing
direction vectors differ. -/
theorem interiorCorners_eq_cornerSpec :
    ∀ pts : List (ℚ × ℚ), interiorCorners pts = cornerSpec pts
  | [] => by simp [interiorCorners, cornerSpec]
  | [a] => by simp [interiorCorners, cornerSpec]
  | [a, b] => by simp [interiorCorners, cornerSpec]
  | a :: b :: c :: rest => by
    rw [interiorCorners, interiorCorners_eq_cornerSpec (b :: c :: rest)]
    simp only [cornerSpec, List.tail_cons, List.zip_cons_cons, List.filterMap_cons]
    by_cases hc : ((b.1 - a.1, b.2 - a.2) : ℚ × ℚ) ≠ (c.1 - b.1, c.2 - b.2)
    · simp [hc]
    · simp [hc]

/-- Dropping all but the last element of a nonempty list leaves exactly
its last element. -/
theorem drop_length_sub_one {α : Type} (d : α) :
    ∀ l : List α, l ≠ [] → l.drop (l.length - 1) = [l.getLastD d] := by
  intro l
  induction l with
  | nil => intro h; exact absurd rfl h
  | cons a t ih =>
    intro _
    cases t with
    | nil => rfl
    | cons b t2 =>
      have h2 := ih (by simp)
      simp only [List.length_cons, Nat.add_sub_cancel] at h2 ⊢
      rw [List.drop_succ_cons]
      simp only [List.getLastD_cons] at h2 ⊢
      exact h2

/-- C2: in corner-simplification mode, for an input of at least 2
points the compiled sequence is exactly the normalisation of: the first
point, those interior points whose incoming direction vector differs
from their outgoing one (exact vector inequality), and the last point;
on 5 colinear points, a turn and 3 more colinear points the output has
exactly 3 waypoints — first, turn and last, normalised. -/
theorem C2_corner_simplification (pts : List (ℚ × ℚ)) (hlen : 2 ≤ pts.length) :
    compileWaypoints pts =
      (pts.take 1 ++ cornerSpec pts ++ pts.drop (pts.length - 1)).map
        (fun p => Waypoint.norm3 ((p.1 - (pts.headD (0, 0)).1) / 10)
          (-(p.2 - (pts.headD (0, 0)).2) / 10) (15 / 100))
    ∧ compileWaypoints ex8 =
        [Waypoint.norm3 0 0 (15 / 100), Waypoint.norm3 (2 / 5) 0 (15 / 100),
         Waypoint.norm3 (2 / 5) (-(3 / 10)) (15 / 100)]
    ∧ (compileWaypoints ex8).length = 3 := by
  have hc : compileWaypoints ex8 =
      [Waypoint.norm3 0 0 (15 / 100), Waypoint.norm3 (2 / 5) 0 (15 / 100),
       Waypoint.norm3 (2 / 5) (-(3 / 10)) (15 / 100)] := by
    norm_num [compileWaypoints, interiorCorners, ex8]
  refine ⟨?_, hc, by rw [hc]; rfl⟩
  cases pts with
  | nil => simp at hlen
  | cons p rest =>
    rw [compileWaypoints, if_neg (Nat.not_lt.mpr hlen)]
    rw [← interiorCorners_eq_cornerSpec, drop_length_sub_one (0, 0) _ (by simp)]
    simp

/-- Witness for C2 at the 8-point colinear-turn-colinear input. -/
theorem C2_corner_simplification_witness :
    2 ≤ ex8.length ∧
    compileWaypoints ex8 =
      (ex8.take 1 ++ cornerSpec ex8 ++ ex8.drop (ex8.length - 1)).map
        (fun p => Waypoint.norm3 ((p.1 - (ex8.headD (0, 0)).1) / 10)
          (-(p.2 - (ex8.headD (0, 0)).2) / 10) (15 / 100)) :=
  ⟨by decide, (C2_corner_simplification ex8 (by decide)).1⟩

/-- Counterexample for C6: a file whose only row has two fields,
neither numeric — so every row has fewer than 2 numeric fields — does
not yield an empty waypoint sequence: `float(row[0])` raises an
uncaught `ValueError` that propagates to the caller. -/
theorem C6_input_robustness_cex :
    numericFieldCount badRow = 0 ∧ badRow.length = 2 ∧
    read_path_waypoints (some [badRow]) = .error .valueError ∧
    read_path_waypoints (some [badRow]) ≠ .ok [] := by
  refine ⟨rfl, rfl, rfl, ?_⟩
  intro h
  exact Except.noConfusion h

/-- C6 as amended: the compiler fails softly on a missing file or a
file whose rows all have fewer than 2 fields (empty sequence, no
exception); a row with fewer than 2 fields is skipped and the remaining
rows are compiled as if it were absent.  (A row with at least 2 fields
whose first two fields are not both numeric instead raises an uncaught
`ValueError`.) -/
theorem C6_input_robustness_amended :
    read_path_waypoints none = .ok []
    ∧ (∀ rows : List (List Cell), (∀ r ∈ rows, r.length < 2) →
        read_path_waypoints (some rows) = .ok [])
    ∧ (∀ (r : List Cell) (rows : List (List Cell)), r.length < 2 →
        read_path_waypoints (some (r :: rows)) = read_path_waypoints (some rows)) := by
  refine ⟨rfl, ?_, ?_⟩
  · intro rows hall
    have hp : parseRows rows = .ok [] := by
      induction rows with
      | nil => rfl
      | cons r rest ih =>
        have hr : ¬ r.length ≥ 2 := by
          have := hall r (by simp)
          omega
        rw [parseRows, if_neg hr]
        exact ih (fun x hx => hall x (by simp [hx]))
    simp [read_path_waypoints, hp, compileWaypoints]
  · intro r rows hr
    have hge : ¬ r.length ≥ 2 := by omega
    simp [read_path_waypoints, parseRows, hge]

/-- Witness for C6 as amended: a one-field row is skipped, both alone
and in front of a valid file. -/
theorem C6_input_robustness_witness :
    ([Cell.num 5] : List Cell).length < 2 ∧
    read_path_waypoints (some [[Cell.num 5]]) = .ok [] ∧
    read_path_waypoints (some ([Cell.num 5] :: [[Cell.num 3, Cell.num 4]])) =
      read_path_waypoints (some [[Cell.num 3, Cell.num 4]]) := by
  refine ⟨by decide, ?_, ?_⟩
  · exact C6_input_robustness_amended.2.1 [[Cell.num 5]]
      (by
        intro r hr
        rw [List.mem_singleton] at hr
        rw [hr]
        decide)
  · exact C6_input_robustness_amended.2.2 [Cell.num 5] [[Cell.num 3, Cell.num 4]]
      (by decide)

/-- C10: a planner file that parses to exactly one valid row is
returned as that single raw 2-element grid point — not normalised, not
scaled, and without a height — while any file parsing to 2 or more
valid rows compiles to normalised 3-tuples at flight height 0.15. -/
theorem C10_single_row_raw (rows : List (List Cell)) (x y : ℚ)
    (hp : parseRows rows = .ok [(x, y)]) :
    read_path_waypoints (some rows) = .ok [Waypoint.raw2 x y]
    ∧ (∀ (rows2 : List (List Cell)) (pts : List (ℚ × ℚ)),
        parseRows rows2 = .ok pts → 2 ≤ pts.length →
        read_path_waypoints (some rows2) = .ok (compileWaypoints pts)
        ∧ ∀ w ∈ compileWaypoints pts, ∃ a b, w = Waypoint.norm3 a b (15 / 100)) := by
  constructor
  · simp [read_path_waypoints, hp, compileWaypoints]
  · intro rows2 pts hp2 hlen
    constructor
    · simp [read_path_waypoints, hp2]
    · intro w hw
      simp only [compileWaypoints] at hw
      rw [if_neg (Nat.not_lt.mpr hlen)] at hw
      simp only [List.mem_map] at hw
      obtain ⟨p, _, hw2⟩ := hw
      exact ⟨_, _, hw2.symm⟩

/-- Witness for C10 at the one-row file `[[3, 4]]`. -/
theorem C10_single_row_raw_witness :
    parseRows [[Cell.num 3, Cell.num 4]] = .ok [((3 : ℚ), (4 : ℚ))] ∧
    read_path_waypoints (some [[Cell.num 3, Cell.num 4]]) =
      .ok [Waypoint.raw2 3 4] :=
  ⟨rfl, (C10_single_row_raw [[Cell.num 3, Cell.num 4]] 3 4 rfl).1⟩
